import Mathlib

/-!
Shallow embedding of rest_assured/testcases.py: REST API test-case mixins.

The module under verification is a Python 2 file of five HTTP-verb test
mixins (list, detail, create, update, destroy) plus three composed mixins.
Each test method builds a route name, issues an HTTP call through the test
client, and runs assertions against the response and the database.

The embedding models Python values, attribute access, the per-test
configuration attributes, and each test method as a pure function from the
configuration, the (externally produced) HTTP response and the post-request
database state to the list of printed diagnostics and an assertion outcome.
-/

set_option autoImplicit false

namespace RestAssured

/-- A scalar Python value: None, a unicode string, or an integer. -/
inductive PyScalar where
  | none
  | str (s : String)
  | int (n : Int)
  deriving DecidableEq, Repr

/-- A Python value as it appears in request data, response data and model
fields: a scalar, or a list of scalars (the shape posted for a
many-to-many key, e.g. a list of pks). Deeper nesting never occurs in the
data this module inspects. -/
inductive PyVal where
  | none
  | str (s : String)
  | int (n : Int)
  | list (xs : List PyScalar)
  deriving DecidableEq, Repr

/-- Embed a scalar into PyVal. -/
def PyScalar.toVal : PyScalar → PyVal
  | PyScalar.none => PyVal.none
  | PyScalar.str s => PyVal.str s
  | PyScalar.int n => PyVal.int n

/-- The exceptions the module can surface: test-assertion failures
(assertEqual, assertIn, assertRaises) and the Python / Django exceptions
raised by attribute access, dict indexing, iteration and objects.get. -/
inductive PyErr where
  | assertionError
  | objectDoesNotExist
  | multipleObjectsReturned
  | attributeError
  | keyError
  | typeError
  deriving DecidableEq, Repr

/-- A Python dict with string keys, as used for request data, response data
and expected results. -/
abbrev Dict := List (String × PyVal)

/-- dict.get style lookup returning the first binding, if any. -/
def dictLookup (d : Dict) (k : String) : Option PyVal :=
  match d with
  | [] => Option.none
  | (k2, v) :: rest => if k2 = k then Option.some v else dictLookup rest k

/-- results.get(key, default): lookup with a fallback value
(testcases.py line 393). -/
def dictGet (d : Dict) (k : String) (default : PyVal) : PyVal :=
  (dictLookup d k).getD default

/-- unicode(v) on a scalar: None renders as the string None, integers in
decimal, strings unchanged. -/
def scalarUnicode : PyScalar → String
  | PyScalar.none => "None"
  | PyScalar.str s => s
  | PyScalar.int n => toString n

/-- unicode(v): the Python unicode coercion of a value. -/
def pyUnicode : PyVal → String
  | PyVal.none => "None"
  | PyVal.str s => s
  | PyVal.int n => toString n
  | PyVal.list xs => "[" ++ String.intercalate ", " (xs.map scalarUnicode) ++ "]"

/-- Python iteration, as in the loop for pk in value of _update_check_db
(line 389): a list yields its elements, a string yields its characters as
one-character strings, and None or an integer raises TypeError. -/
def pyIter : PyVal → Option (List PyVal)
  | PyVal.list xs => Option.some (xs.map PyScalar.toVal)
  | PyVal.str s => Option.some (s.toList.map (fun c => PyVal.str (String.singleton c)))
  | PyVal.none => Option.none
  | PyVal.int _ => Option.none

/-- A related model instance as seen through a foreign key: it may carry a
uuid field, and always has a pk (testcases.py lines 378-384). -/
structure Related where
  uuid : Option PyVal
  pk : PyVal
  deriving DecidableEq, Repr

/-- The value of a model-instance attribute: a plain field value, a related
instance reached through a foreign key, or a Manager for a many-to-many
relation (carrying the pks of the related objects, all that lines 388-390
read from it). -/
inductive AttrVal where
  | plain (v : PyVal)
  | related (r : Related)
  | manager (pks : List PyVal)
  deriving DecidableEq, Repr

/-- A model instance: a finite map from attribute names to values. -/
structure DBObject where
  attrs : List (String × AttrVal)
  deriving DecidableEq, Repr

/-- Association-list lookup over attribute bindings. -/
def lookupAttr : List (String × AttrVal) → String → Option AttrVal
  | [], _ => Option.none
  | (k, v) :: rest, n => if k = n then Option.some v else lookupAttr rest n

/-- Attribute lookup without exceptions: the first binding, if any. -/
def getattrOpt (o : DBObject) (name : String) : Option AttrVal :=
  lookupAttr o.attrs name

/-- Python hasattr(obj, name). -/
def hasattr (o : DBObject) (name : String) : Bool :=
  (getattrOpt o name).isSome

/-- Python getattr(obj, name): the value, or AttributeError when absent. -/
def getattr (o : DBObject) (name : String) : Except PyErr AttrVal :=
  match getattrOpt o name with
  | Option.some v => Except.ok v
  | Option.none => Except.error PyErr.attributeError

/-- Django Model.objects.get(field=v): the unique row whose field equals v;
ObjectDoesNotExist when there is none and MultipleObjectsReturned when
there are several (used at lines 244, 279 and 356). -/
def dbGet (db : List DBObject) (field : String) (v : AttrVal) : Except PyErr DBObject :=
  match db.filter (fun o => getattrOpt o field == Option.some v) with
  | [o] => Except.ok o
  | [] => Except.error PyErr.objectDoesNotExist
  | _ => Except.error PyErr.multipleObjectsReturned

/-- An HTTP response as the DRF test client returns it: a status code and
the deserialized response data. -/
structure Response where
  status_code : Nat
  data : Dict
  deriving DecidableEq, Repr

/-- An entry of the attributes_to_check list (lines 145, 193-201).
A plain string names an attribute compared after unicode coercion; a tuple
or list carries the response-data key and a callable applied to the object;
a set passes the isinstance check on line 195, but indexing it on line 196
raises TypeError, so its elements are never read. -/
inductive CheckAttr where
  | name (s : String)
  | pair (k : String) (f : DBObject → PyVal)
  | setEntry (elems : List String)

/-- The configuration attributes of a concrete test-case class, i.e. a
subclass of BaseRESTAPITestCase with the mixins, after setUp has created
the main object. Attributes the base classes leave unset (create_name,
update_name, destroy_name) are Options, none meaning hasattr is false;
update_results is the value of the class attribute of line 302 (None by
default), create_data and update_data likewise (lines 209, 299). -/
structure TC where
  base_name : String
  LIST_SUFFIX : String
  DETAIL_SUFFIX : String
  lookup_field : String
  object : DBObject
  attributes_to_check : List CheckAttr
  create_data : Option Dict
  create_name : Option String
  use_patch : Bool
  update_data : Option Dict
  update_results : Option Dict
  update_name : Option String
  destroy_name : Option String

/-- The list-view route name, base_name + LIST_SUFFIX (line 126). -/
def listViewName (tc : TC) : String :=
  tc.base_name ++ tc.LIST_SUFFIX

/-- The detail-view route name, base_name + DETAIL_SUFFIX (line 182). -/
def detailViewName (tc : TC) : String :=
  tc.base_name ++ tc.DETAIL_SUFFIX

/-- _get_create_name (lines 248-254): create_name when the attribute is
present, else the list-view name. -/
def _get_create_name (tc : TC) : String :=
  match tc.create_name with
  | Option.some n => n
  | Option.none => tc.base_name ++ tc.LIST_SUFFIX

/-- _get_update_name (lines 363-369): update_name when the attribute is
present, else the detail-view name. -/
def _get_update_name (tc : TC) : String :=
  match tc.update_name with
  | Option.some n => n
  | Option.none => tc.base_name ++ tc.DETAIL_SUFFIX

/-- _get_destroy_name (lines 283-289): destroy_name when the attribute is
present, else the detail-view name. -/
def _get_destroy_name (tc : TC) : String :=
  match tc.destroy_name with
  | Option.some n => n
  | Option.none => tc.base_name ++ tc.DETAIL_SUFFIX

/-- test_list (lines 104-135), given the response of the GET on the
list-view route. Prints response.data when the status is not 200, asserts
a 200 status, asserts a results key in response.data, and returns the
response. The first component collects the printed diagnostics. -/
def test_list (tc : TC) (response : Response) : List Dict × Except PyErr Response :=
  let _route := listViewName tc
  if response.status_code = 200 then
    if (dictLookup response.data "results").isSome then ([], Except.ok response)
    else ([], Except.error PyErr.assertionError)
  else ([response.data], Except.error PyErr.assertionError)

/-- unicode() of an attribute value. For a plain field this is the scalar
coercion; for a related instance or a manager Python renders an object
repr whose exact text no assertion in the module depends on. -/
def attrUnicode : AttrVal → String
  | AttrVal.plain v => pyUnicode v
  | AttrVal.related r => "<object: pk " ++ pyUnicode r.pk ++ ">"
  | AttrVal.manager pks => "<manager: " ++ toString pks.length ++ " objects>"

/-- _check_attributes (lines 193-201) iterating attributes_to_check: a
string entry compares unicode(getattr(object, attr)) with data[attr]; a
tuple or list entry compares attr[1](object), uncoerced, with
data[attr[0]]; a set entry raises TypeError at attr[1]. -/
def check_attributes_loop (obj : DBObject) (data : Dict) : List CheckAttr → Except PyErr Unit
  | [] => Except.ok ()
  | CheckAttr.name s :: rest =>
    match getattr obj s with
    | Except.error e => Except.error e
    | Except.ok av =>
      match dictLookup data s with
      | Option.none => Except.error PyErr.keyError
      | Option.some dv =>
        if PyVal.str (attrUnicode av) = dv then check_attributes_loop obj data rest
        else Except.error PyErr.assertionError
  | CheckAttr.pair k f :: rest =>
    match dictLookup data k with
    | Option.none => Except.error PyErr.keyError
    | Option.some dv =>
      if f obj = dv then check_attributes_loop obj data rest
      else Except.error PyErr.assertionError
  | CheckAttr.setEntry _ :: _ => Except.error PyErr.typeError

/-- test_detail (lines 147-191), given the response of the GET on the
detail-view route. Reads getattr(object, lookup_field) to build the URL,
prints response.data when the status is not 200, asserts a 200 status and
runs _check_attributes on response.data. -/
def test_detail (tc : TC) (response : Response) : List Dict × Except PyErr Response :=
  match getattr tc.object tc.lookup_field with
  | Except.error e => ([], Except.error e)
  | Except.ok _ =>
    if response.status_code = 200 then
      match check_attributes_loop tc.object response.data tc.attributes_to_check with
      | Except.ok _ => ([], Except.ok response)
      | Except.error e => ([], Except.error e)
    else ([response.data], Except.error PyErr.assertionError)

/-- get_create_data (lines 211-219): the create_data attribute. -/
def get_create_data (tc : TC) : Option Dict :=
  tc.create_data

/-- Line 231-232: the data argument, or get_create_data() when it is None. -/
def create_request_data (tc : TC) (data : Option Dict) : Option Dict :=
  match data with
  | Option.none => get_create_data tc
  | Option.some d => Option.some d

/-- Python truthiness of a dict: non-empty. -/
def pyTruthyDict (d : Dict) : Bool :=
  !d.isEmpty

/-- Line 235: the POST body actually sent, data or the empty dict: the
resolved data when it is a non-empty dict, else the empty dict. -/
def create_request_body (tc : TC) (data : Option Dict) : Dict :=
  match create_request_data tc data with
  | Option.none => []
  | Option.some d => if pyTruthyDict d then d else []

/-- test_create (lines 221-246), given the response of the POST of
create_request_body on the create route and the database state after the
call. Prints response.data when the status is not 201, asserts a 201
status, fetches the created row by the id key of response.data and returns
the response paired with the fetched instance. -/
def test_create (tc : TC) (data : Option Dict) (response : Response) (db : List DBObject) :
    List Dict × Except PyErr (Response × DBObject) :=
  let _body := create_request_body tc data
  if response.status_code = 201 then
    match dbGet db "id" (AttrVal.plain (dictGet response.data "id" PyVal.none)) with
    | Except.ok created => ([], Except.ok (response, created))
    | Except.error e => ([], Except.error e)
  else ([response.data], Except.error PyErr.assertionError)

/-- test_destroy (lines 261-281), given the response of the DELETE on the
destroy route and the database state after the call. Reads
getattr(object, lookup_field) first, asserts a 204 status (printing
nothing in any case), then asserts that objects.get(lookup_field=object_id)
raises ObjectDoesNotExist: a row still present is an assertion failure and
any other exception from the fetch propagates. -/
def test_destroy (tc : TC) (response : Response) (db : List DBObject) :
    List Dict × Except PyErr Response :=
  match getattr tc.object tc.lookup_field with
  | Except.error e => ([], Except.error e)
  | Except.ok oid =>
    if response.status_code = 204 then
      match dbGet db tc.lookup_field oid with
      | Except.error e =>
        if e = PyErr.objectDoesNotExist then ([], Except.ok response)
        else ([], Except.error e)
      | Except.ok _ => ([], Except.error PyErr.assertionError)
    else ([], Except.error PyErr.assertionError)

/-- get_update_data (lines 304-312): the update_data attribute. -/
def get_update_data (tc : TC) : Option Dict :=
  tc.update_data

/-- Python three-argument getattr: the attribute value when the lookup
finds the attribute on the instance or a class in its MRO, else the
default. -/
def getattr3 {α : Type} (found : Option α) (default : α) : α :=
  found.getD default

/-- get_update_results (lines 314-324): getattr(self, update_results, data).
Line 302 defines update_results as a class attribute (value None), so the
lookup always finds it and the first argument of getattr3 is Option.some. -/
def get_update_results (tc : TC) (data : Option Dict) : Option Dict :=
  getattr3 (Option.some tc.update_results) data

/-- Lines 338-339: the data argument of test_update, or get_update_data()
when it is None. -/
def resolve_update_data (tc : TC) (data : Option Dict) : Option Dict :=
  match data with
  | Option.none => get_update_data tc
  | Option.some x => Option.some x

/-- Lines 341-342: the results argument of test_update, or
get_update_results(data) on the resolved data when it is None. -/
def resolve_update_results (tc : TC) (data results : Option Dict) : Option Dict :=
  match results with
  | Option.none => get_update_results tc data
  | Option.some x => Option.some x

/-- Lines 345-346: the use_patch argument, or the class attribute when it
is None. Selects whether the external call is a PATCH or a PUT. -/
def resolve_use_patch (tc : TC) (use_patch : Option Bool) : Bool :=
  match use_patch with
  | Option.none => tc.use_patch
  | Option.some b => b

/-- Lines 381-384: unicode(related.uuid) when the related instance has a
uuid attribute, else unicode(related.pk). -/
def relatedUnicode (r : Related) : String :=
  match r.uuid with
  | Option.some u => pyUnicode u
  | Option.none => pyUnicode r.pk

/-- Line 390: the list comprehension of unicode(item.pk) over
attribute.all(). -/
def managerPkStrings (pks : List PyVal) : List PyVal :=
  pks.map (fun p => PyVal.str (pyUnicode p))

/-- The loop of _update_check_db (lines 375-393) over the request data.
For a key with a companion key_id attribute the attribute under key is the
related instance; unicode of its uuid (when present) or pk is compared to
results.get(key, value); other attribute shapes there have no uuid and no
pk, raising AttributeError. Without a companion key_id, a Manager
attribute checks each posted pk for membership among the unicode pks of
the related objects and returns True, ending the loop; a plain attribute
is compared raw to results.get(key, value); a related instance compared to
request-data values is never equal. Falling off the end returns None,
modelled as false. -/
def update_check_loop (obj : DBObject) (res : Dict) : List (String × PyVal) → Except PyErr Bool
  | [] => Except.ok false
  | (key, value) :: rest =>
    if hasattr obj (key ++ "_id") then
      match getattr obj key with
      | Except.error e => Except.error e
      | Except.ok (AttrVal.related r) =>
        if PyVal.str (relatedUnicode r) = dictGet res key value then update_check_loop obj res rest
        else Except.error PyErr.assertionError
      | Except.ok _ => Except.error PyErr.attributeError
    else
      match getattr obj key with
      | Except.error e => Except.error e
      | Except.ok (AttrVal.manager pks) =>
        match pyIter value with
        | Option.none => Except.error PyErr.typeError
        | Option.some items =>
          if items.all (fun pk => (managerPkStrings pks).contains pk) then Except.ok true
          else Except.error PyErr.assertionError
      | Except.ok (AttrVal.plain v) =>
        if v = dictGet res key value then update_check_loop obj res rest
        else Except.error PyErr.assertionError
      | Except.ok (AttrVal.related _) => Except.error PyErr.assertionError

/-- Lines 372-373: a None results dict is replaced by an empty dict before
the loop. -/
def effective_results (results : Option Dict) : Dict :=
  match results with
  | Option.none => []
  | Option.some r => r

/-- _update_check_db (lines 371-393): replace a None results with an empty
dict, then iterate data.iteritems(); iterating a None data raises
AttributeError. -/
def _update_check_db (obj : DBObject) (data : Option Dict) (results : Option Dict) :
    Except PyErr Bool :=
  match data with
  | Option.none => Except.error PyErr.attributeError
  | Option.some d => update_check_loop obj (effective_results results) d

/-- test_update (lines 326-361), given the response of the PATCH or PUT on
the update route and the database state after the call. Reads
getattr(object, lookup_field), resolves data and results through their
attributes, prints response.data exactly when the status is 400, asserts
a 200 status, re-fetches the object by lookup_field and runs
_update_check_db on the fresh copy. -/
def test_update (tc : TC) (data results : Option Dict) (response : Response)
    (db : List DBObject) : List Dict × Except PyErr (Response × DBObject) :=
  match getattr tc.object tc.lookup_field with
  | Except.error e => ([], Except.error e)
  | Except.ok oid =>
    let d := resolve_update_data tc data
    let res := resolve_update_results tc d results
    let printed := if response.status_code = 400 then [response.data] else ([] : List Dict)
    if response.status_code = 200 then
      match dbGet db tc.lookup_field oid with
      | Except.error e => (printed, Except.error e)
      | Except.ok updated =>
        match _update_check_db updated d res with
        | Except.ok _ => (printed, Except.ok (response, updated))
        | Except.error e => (printed, Except.error e)
    else (printed, Except.error PyErr.assertionError)

/-- The public test methods ListAPITestCaseMixin defines (line 104). -/
def ListAPITestCaseMixin_testMethods : List String :=
  ["test_list"]

/-- The public test methods DetailAPITestCaseMixin defines (line 147). -/
def DetailAPITestCaseMixin_testMethods : List String :=
  ["test_detail"]

/-- The public test methods CreateAPITestCaseMixin defines (line 221). -/
def CreateAPITestCaseMixin_testMethods : List String :=
  ["test_create"]

/-- The public test methods UpdateAPITestCaseMixin defines (line 326). -/
def UpdateAPITestCaseMixin_testMethods : List String :=
  ["test_update"]

/-- The public test methods DestroyAPITestCaseMixin defines (line 261). -/
def DestroyAPITestCaseMixin_testMethods : List String :=
  ["test_destroy"]

/-- ReadRESTAPITestCaseMixin (lines 396-403): the class body is pass, so
its test methods are those inherited from its two bases. -/
def ReadRESTAPITestCaseMixin_testMethods : List String :=
  ListAPITestCaseMixin_testMethods ++ DetailAPITestCaseMixin_testMethods

/-- WriteRESTAPITestCaseMixin (lines 406-413): the class body is pass, so
its test methods are those inherited from its three bases. -/
def WriteRESTAPITestCaseMixin_testMethods : List String :=
  CreateAPITestCaseMixin_testMethods ++ UpdateAPITestCaseMixin_testMethods ++
    DestroyAPITestCaseMixin_testMethods

/-- ReadWriteRESTAPITestCaseMixin (lines 416-423): the class body is pass,
so its test methods are those inherited from the read and write mixins. -/
def ReadWriteRESTAPITestCaseMixin_testMethods : List String :=
  ReadRESTAPITestCaseMixin_testMethods ++ WriteRESTAPITestCaseMixin_testMethods

/-- Declarative reading of a run of the _update_check_db loop that raises
no assertion: each request-data entry is checked according to the shape of
the object attribute under its key, and a many-to-many entry ends the
checking, leaving the remaining entries unchecked. -/
inductive UpdateCheckOK (obj : DBObject) (res : Dict) : List (String × PyVal) → Prop
  | nil : UpdateCheckOK obj res []
  | fk (key : String) (value : PyVal) (rest : List (String × PyVal)) (r : Related) :
      hasattr obj (key ++ "_id") = true →
      getattr obj key = Except.ok (AttrVal.related r) →
      PyVal.str (relatedUnicode r) = dictGet res key value →
      UpdateCheckOK obj res rest →
      UpdateCheckOK obj res ((key, value) :: rest)
  | m2m (key : String) (value : PyVal) (rest : List (String × PyVal))
      (pks : List PyVal) (items : List PyVal) :
      hasattr obj (key ++ "_id") = false →
      getattr obj key = Except.ok (AttrVal.manager pks) →
      pyIter value = Option.some items →
      (∀ pk ∈ items, pk ∈ managerPkStrings pks) →
      UpdateCheckOK obj res ((key, value) :: rest)
  | plainAttr (key : String) (value : PyVal) (rest : List (String × PyVal)) (v : PyVal) :
      hasattr obj (key ++ "_id") = false →
      getattr obj key = Except.ok (AttrVal.plain v) →
      v = dictGet res key value →
      UpdateCheckOK obj res rest →
      UpdateCheckOK obj res ((key, value) :: rest)

/-- Declarative reading of a run of _check_attributes that raises nothing:
a string entry requires the response data at that key to hold exactly the
unicode coercion of the attribute, a tuple or list entry requires it to
hold exactly the raw result of the callable; no set entry can occur. -/
inductive DetailCheckOK (obj : DBObject) (data : Dict) : List CheckAttr → Prop
  | nil : DetailCheckOK obj data []
  | nameEntry (s : String) (rest : List CheckAttr) (av : AttrVal) :
      getattr obj s = Except.ok av →
      dictLookup data s = Option.some (PyVal.str (attrUnicode av)) →
      DetailCheckOK obj data rest →
      DetailCheckOK obj data (CheckAttr.name s :: rest)
  | pairEntry (k : String) (f : DBObject → PyVal) (rest : List CheckAttr) :
      dictLookup data k = Option.some (f obj) →
      DetailCheckOK obj data rest →
      DetailCheckOK obj data (CheckAttr.pair k f :: rest)

/-- A related account instance with a uuid attribute. -/
def sampleRelated : Related :=
  ⟨Option.some (PyVal.str "u-1"), PyVal.int 7⟩

/-- A sample main object: scalar fields, a foreign key (owner with its
owner_id companion) and a many-to-many manager (tags). -/
def sampleObject : DBObject :=
  ⟨[("pk", AttrVal.plain (PyVal.int 1)),
    ("id", AttrVal.plain (PyVal.int 1)),
    ("name", AttrVal.plain (PyVal.str "blue")),
    ("owner_id", AttrVal.plain (PyVal.int 7)),
    ("owner", AttrVal.related sampleRelated),
    ("tags", AttrVal.manager [PyVal.int 5, PyVal.int 8])]⟩

/-- The sample object as the update request should leave it. -/
def sampleObjectUpdated : DBObject :=
  ⟨[("pk", AttrVal.plain (PyVal.int 1)),
    ("id", AttrVal.plain (PyVal.int 1)),
    ("name", AttrVal.plain (PyVal.str "red")),
    ("owner_id", AttrVal.plain (PyVal.int 7)),
    ("owner", AttrVal.related sampleRelated),
    ("tags", AttrVal.manager [PyVal.int 5, PyVal.int 8])]⟩

/-- The row the sample create request adds. -/
def createdObject : DBObject :=
  ⟨[("pk", AttrVal.plain (PyVal.int 2)),
    ("id", AttrVal.plain (PyVal.int 2)),
    ("name", AttrVal.plain (PyVal.str "green"))]⟩

/-- A sample test-case configuration with the default route suffixes, no
per-verb name overrides and None update_results. -/
def sampleTC : TC :=
  ⟨"widget", "-list", "-detail", "pk", sampleObject,
    [CheckAttr.name "id"],
    Option.some [("name", PyVal.str "green")],
    Option.none,
    true,
    Option.some [("name", PyVal.str "red")],
    Option.none,
    Option.none,
    Option.none⟩

/-- A configuration exercising the per-verb name overrides and unset data
attributes. -/
def bareTC : TC :=
  ⟨"gadget", "-list", "-detail", "pk", sampleObject,
    [CheckAttr.name "id"],
    Option.none,
    Option.some "gadget-create",
    true,
    Option.none,
    Option.none,
    Option.some "gadget-update",
    Option.some "gadget-destroy"⟩

/-- A successful list response carrying the pagination envelope. -/
def okListResponse : Response :=
  ⟨200, [("results", PyVal.list [])]⟩

/-- A successful detail response echoing the object id as a string. -/
def okDetailResponse : Response :=
  ⟨200, [("id", PyVal.str "1")]⟩

/-- A successful create response echoing the new id. -/
def okCreateResponse : Response :=
  ⟨201, [("id", PyVal.int 2)]⟩

/-- A successful update response. -/
def okUpdateResponse : Response :=
  ⟨200, [("name", PyVal.str "red")]⟩

/-- A successful destroy response. -/
def noContentResponse : Response :=
  ⟨204, []⟩

/-- An unexpected not-found response. -/
def notFoundResponse : Response :=
  ⟨404, [("detail", PyVal.str "Not found.")]⟩

/-- An unexpected bad-request response. -/
def badRequestResponse : Response :=
  ⟨400, [("name", PyVal.list [PyScalar.str "This field is required."])]⟩

/-- Database state after the sample create request. -/
def dbAfterCreate : List DBObject :=
  [sampleObject, createdObject]

/-- Database state after the sample update request. -/
def dbAfterUpdate : List DBObject :=
  [sampleObjectUpdated]

/-- An object holding only a many-to-many manager whose related pks are
the integers 5. -/
def m2mObject : DBObject :=
  ⟨[("tags", AttrVal.manager [PyVal.int 5])]⟩

/-- Request data posting the integer pk 5 for the tags key. -/
def m2mData : Dict :=
  [("tags", PyVal.list [PyScalar.int 5])]

/-- Whether a computation finished without raising. -/
def ranOk {α : Type} : Except PyErr α → Bool
  | Except.ok _ => true
  | Except.error _ => false

/-- objects.get when the filter finds no row: ObjectDoesNotExist. -/
theorem dbGet_of_filter_nil {db : List DBObject} {field : String} {v : AttrVal}
    (hf : db.filter (fun o => getattrOpt o field == Option.some v) = []) :
    dbGet db field v = Except.error PyErr.objectDoesNotExist := by
  unfold dbGet
  rw [hf]

/-- objects.get when the filter finds exactly one row: that row. -/
theorem dbGet_of_filter_one {db : List DBObject} {field : String} {v : AttrVal} {o : DBObject}
    (hf : db.filter (fun o => getattrOpt o field == Option.some v) = [o]) :
    dbGet db field v = Except.ok o := by
  unfold dbGet
  rw [hf]

/-- objects.get when the filter finds at least two rows:
MultipleObjectsReturned. -/
theorem dbGet_of_filter_many {db : List DBObject} {field : String} {v : AttrVal}
    {a b : DBObject} {tl : List DBObject}
    (hf : db.filter (fun o => getattrOpt o field == Option.some v) = a :: b :: tl) :
    dbGet db field v = Except.error PyErr.multipleObjectsReturned := by
  unfold dbGet
  rw [hf]

/-- A row returned by objects.get belongs to the database and holds the
looked-up value in the looked-up field. -/
theorem dbGet_ok_mem {db : List DBObject} {field : String} {v : AttrVal} {o : DBObject}
    (h : dbGet db field v = Except.ok o) :
    o ∈ db ∧ getattrOpt o field = Option.some v := by
  rcases hf : db.filter (fun o => getattrOpt o field == Option.some v) with _ | ⟨a, _ | ⟨b, tl⟩⟩
  · rw [dbGet_of_filter_nil hf] at h
    exact absurd h (by simp)
  · rw [dbGet_of_filter_one hf] at h
    have hao : a = o := by injection h
    subst hao
    have ha : a ∈ db.filter (fun o => getattrOpt o field == Option.some v) := by
      rw [hf]
      exact List.mem_singleton_self a
    have hm := List.mem_filter.mp ha
    exact ⟨hm.1, beq_iff_eq.mp hm.2⟩
  · rw [dbGet_of_filter_many hf] at h
    exact absurd h (by simp)

/-- objects.get raises ObjectDoesNotExist exactly when no row of the
database holds the looked-up value in the looked-up field. -/
theorem dbGet_notFound_iff {db : List DBObject} {field : String} {v : AttrVal} :
    dbGet db field v = Except.error PyErr.objectDoesNotExist ↔
      ∀ o ∈ db, getattrOpt o field ≠ Option.some v := by
  constructor
  · intro h o ho hv
    have hmem : o ∈ db.filter (fun o => getattrOpt o field == Option.some v) :=
      List.mem_filter.mpr ⟨ho, beq_iff_eq.mpr hv⟩
    rcases hf : db.filter (fun o => getattrOpt o field == Option.some v) with _ | ⟨a, _ | ⟨b, tl⟩⟩
    · rw [hf] at hmem
      exact absurd hmem (List.not_mem_nil o)
    · rw [dbGet_of_filter_one hf] at h
      exact absurd h (by simp)
    · rw [dbGet_of_filter_many hf] at h
      simp at h
  · intro h
    apply dbGet_of_filter_nil
    refine List.filter_eq_nil_iff.mpr ?_
    intro o ho
    simp only [beq_iff_eq]
    simpa using h o ho

/-- The _update_check_db loop raises nothing exactly when the declarative
per-entry conditions of UpdateCheckOK hold. -/
theorem update_check_loop_ok_iff (obj : DBObject) (res : Dict) :
    ∀ d : List (String × PyVal),
      ranOk (update_check_loop obj res d) = true ↔ UpdateCheckOK obj res d := by
  intro d
  induction d with
  | nil =>
    exact ⟨fun _ => UpdateCheckOK.nil, fun _ => rfl⟩
  | cons kv rest ih =>
    obtain ⟨key, value⟩ := kv
    constructor
    · intro h
      by_cases hid : hasattr obj (key ++ "_id")
      · rcases hg : getattr obj key with e | av
        · simp [update_check_loop, hid, hg, ranOk] at h
        · cases av with
          | plain v => simp [update_check_loop, hid, hg, ranOk] at h
          | related r =>
            by_cases heq : PyVal.str (relatedUnicode r) = dictGet res key value
            · refine UpdateCheckOK.fk key value rest r hid hg heq (ih.mp ?_)
              simpa [update_check_loop, hid, hg, heq] using h
            · simp [update_check_loop, hid, hg, heq, ranOk] at h
          | manager pks => simp [update_check_loop, hid, hg, ranOk] at h
      · rcases hg : getattr obj key with e | av
        · simp [update_check_loop, hid, hg, ranOk] at h
        · cases av with
          | plain v =>
            by_cases heq : v = dictGet res key value
            · refine UpdateCheckOK.plainAttr key value rest v (by simpa using hid) hg heq (ih.mp ?_)
              simpa [update_check_loop, hid, hg, heq] using h
            · simp [update_check_loop, hid, hg, heq, ranOk] at h
          | related r => simp [update_check_loop, hid, hg, ranOk] at h
          | manager pks =>
            rcases hit : pyIter value with _ | items
            · simp [update_check_loop, hid, hg, hit, ranOk] at h
            · by_cases hall : ∀ pk ∈ items, pk ∈ managerPkStrings pks
              · exact UpdateCheckOK.m2m key value rest pks items (by simpa using hid) hg hit hall
              · simp [update_check_loop, hid, hg, hit, hall, ranOk] at h
    · intro h
      cases h with
      | fk key value rest r hid hg heq hrest =>
        simpa [update_check_loop, hid, hg, heq] using ih.mpr hrest
      | m2m key value rest pks items hid hg hit hmem =>
        simp [update_check_loop, hid, hg, hit, ranOk]
        rw [if_pos hmem]
      | plainAttr key value rest v hid hg heq hrest =>
        simpa [update_check_loop, hid, hg, heq] using ih.mpr hrest

/-- The _check_attributes loop raises nothing exactly when the declarative
per-entry conditions of DetailCheckOK hold. -/
theorem check_attributes_loop_ok_iff (obj : DBObject) (data : Dict) :
    ∀ attrs : List CheckAttr,
      ranOk (check_attributes_loop obj data attrs) = true ↔ DetailCheckOK obj data attrs := by
  intro attrs
  induction attrs with
  | nil =>
    exact ⟨fun _ => DetailCheckOK.nil, fun _ => rfl⟩
  | cons entry rest ih =>
    cases entry with
    | name s =>
      constructor
      · intro h
        rcases hg : getattr obj s with e | av
        · simp [check_attributes_loop, hg, ranOk] at h
        · rcases hd : dictLookup data s with _ | dv
          · simp [check_attributes_loop, hg, hd, ranOk] at h
          · by_cases heq : PyVal.str (attrUnicode av) = dv
            · subst heq
              exact DetailCheckOK.nameEntry s rest av hg hd
                (ih.mp (by simpa [check_attributes_loop, hg, hd] using h))
            · simp [check_attributes_loop, hg, hd, heq, ranOk] at h
      · intro h
        cases h with
        | nameEntry s rest av hg hd hrest =>
          simpa [check_attributes_loop, hg, hd] using ih.mpr hrest
    | pair k f =>
      constructor
      · intro h
        rcases hd : dictLookup data k with _ | dv
        · simp [check_attributes_loop, hd, ranOk] at h
        · by_cases heq : f obj = dv
          · subst heq
            exact DetailCheckOK.pairEntry k f rest hd
              (ih.mp (by simpa [check_attributes_loop, hd] using h))
          · simp [check_attributes_loop, hd, heq, ranOk] at h
      · intro h
        cases h with
        | pairEntry k f rest hd hrest =>
          simpa [check_attributes_loop, hd] using ih.mpr hrest
    | setEntry elems =>
      constructor
      · intro h
        simp [check_attributes_loop, ranOk] at h
      · intro h
        cases h

/-- C1: each test method asserts the framework-standard success status
code and envelope: a normal return of test_list means a 200 response whose
data has a results key, of test_detail and test_update a 200 response, of
test_create a 201 response and of test_destroy a 204 response; any other
status code makes the method fail with an assertion error (for the methods
that first read the lookup attribute, once that read succeeded). -/
theorem claim_C1 (tc : TC) (dataArg resultsArg : Option Dict) (resp : Response)
    (db : List DBObject) :
    (∀ r, (test_list tc resp).2 = Except.ok r →
      resp.status_code = 200 ∧ (dictLookup resp.data "results").isSome = true) ∧
    (resp.status_code ≠ 200 →
      (test_list tc resp).2 = Except.error PyErr.assertionError) ∧
    (∀ r, (test_detail tc resp).2 = Except.ok r → resp.status_code = 200) ∧
    (∀ av, getattr tc.object tc.lookup_field = Except.ok av → resp.status_code ≠ 200 →
      (test_detail tc resp).2 = Except.error PyErr.assertionError) ∧
    (∀ r c, (test_create tc dataArg resp db).2 = Except.ok (r, c) →
      resp.status_code = 201) ∧
    (resp.status_code ≠ 201 →
      (test_create tc dataArg resp db).2 = Except.error PyErr.assertionError) ∧
    (∀ r u, (test_update tc dataArg resultsArg resp db).2 = Except.ok (r, u) →
      resp.status_code = 200) ∧
    (∀ av, getattr tc.object tc.lookup_field = Except.ok av → resp.status_code ≠ 200 →
      (test_update tc dataArg resultsArg resp db).2 = Except.error PyErr.assertionError) ∧
    (∀ r, (test_destroy tc resp db).2 = Except.ok r → resp.status_code = 204) ∧
    (∀ av, getattr tc.object tc.lookup_field = Except.ok av → resp.status_code ≠ 204 →
      (test_destroy tc resp db).2 = Except.error PyErr.assertionError) := by
  refine ⟨?_, ?_, ?_, ?_, ?_, ?_, ?_, ?_, ?_, ?_⟩
  · intro r h
    by_cases h200 : resp.status_code = 200
    · refine ⟨h200, ?_⟩
      by_cases hres : (dictLookup resp.data "results").isSome = true
      · exact hres
      · simp [test_list, h200, hres] at h
    · simp [test_list, h200] at h
  · intro hne
    simp [test_list, hne]
  · intro r h
    rcases hg : getattr tc.object tc.lookup_field with e | av
    · simp [test_detail, hg] at h
    · by_cases h200 : resp.status_code = 200
      · exact h200
      · simp [test_detail, hg, h200] at h
  · intro av hg hne
    rcases hc : check_attributes_loop tc.object resp.data tc.attributes_to_check with e | u
    · simp [test_detail, hg, hne, hc]
    · simp [test_detail, hg, hne, hc]
  · intro r c h
    by_cases h201 : resp.status_code = 201
    · exact h201
    · simp [test_create, h201] at h
  · intro hne
    simp [test_create, hne]
  · intro r u h
    rcases hg : getattr tc.object tc.lookup_field with e | av
    · simp [test_update, hg] at h
    · by_cases h200 : resp.status_code = 200
      · exact h200
      · simp [test_update, hg, h200] at h
  · intro av hg hne
    simp [test_update, hg, hne]
  · intro r h
    rcases hg : getattr tc.object tc.lookup_field with e | av
    · simp [test_destroy, hg] at h
    · by_cases h204 : resp.status_code = 204
      · exact h204
      · simp [test_destroy, hg, h204] at h
  · intro av hg hne
    simp [test_destroy, hg, hne]

/-- Witness for C1: on a concrete 404 response the list assertion and the
create assertion both fail with an assertion error. -/
theorem claim_C1_witness :
    notFoundResponse.status_code ≠ 200 ∧
    (test_list sampleTC notFoundResponse).2 = Except.error PyErr.assertionError ∧
    notFoundResponse.status_code ≠ 201 ∧
    (test_create sampleTC Option.none notFoundResponse dbAfterCreate).2 =
      Except.error PyErr.assertionError :=
  ⟨by decide,
   (claim_C1 sampleTC Option.none Option.none notFoundResponse dbAfterCreate).2.1 (by decide),
   by decide,
   (claim_C1 sampleTC Option.none Option.none notFoundResponse
     dbAfterCreate).2.2.2.2.2.1 (by decide)⟩

/-- C2 counterexample: test_destroy on a concrete 404 response fails its
status assertion without printing any diagnostic, contradicting the claim
that every one of the five test methods prints response.data whenever the
status code differs from the expected success code. -/
theorem claim_C2_counterexample :
    notFoundResponse.status_code ≠ 204 ∧
    (test_destroy sampleTC notFoundResponse [sampleObject]).2 =
      Except.error PyErr.assertionError ∧
    (test_destroy sampleTC notFoundResponse [sampleObject]).1 = [] :=
  ⟨by decide, rfl, rfl⟩

/-- C2 as amended: test_list, test_detail and test_create print
response.data exactly when the status code differs from the expected
success code; test_update prints it exactly when the status code is 400;
test_destroy never prints anything. -/
theorem claim_C2 (tc : TC) (dataArg resultsArg : Option Dict) (resp : Response)
    (db : List DBObject) :
    ((test_list tc resp).1 = if resp.status_code = 200 then [] else [resp.data]) ∧
    (∀ av, getattr tc.object tc.lookup_field = Except.ok av →
      (test_detail tc resp).1 = if resp.status_code = 200 then [] else [resp.data]) ∧
    ((test_create tc dataArg resp db).1 = if resp.status_code = 201 then [] else [resp.data]) ∧
    (∀ av, getattr tc.object tc.lookup_field = Except.ok av →
      (test_update tc dataArg resultsArg resp db).1 =
        if resp.status_code = 400 then [resp.data] else []) ∧
    ((test_destroy tc resp db).1 = []) := by
  refine ⟨?_, ?_, ?_, ?_, ?_⟩
  · by_cases h200 : resp.status_code = 200
    · by_cases hres : (dictLookup resp.data "results").isSome = true <;>
        simp [test_list, h200, hres]
    · simp [test_list, h200]
  · intro av hg
    by_cases h200 : resp.status_code = 200
    · rcases hc : check_attributes_loop tc.object resp.data tc.attributes_to_check with e | u <;>
        simp [test_detail, hg, h200, hc]
    · simp [test_detail, hg, h200]
  · by_cases h201 : resp.status_code = 201
    · rcases hdb : dbGet db "id" (AttrVal.plain (dictGet resp.data "id" PyVal.none)) with e | o <;>
        simp [test_create, h201, hdb]
    · simp [test_create, h201]
  · intro av hg
    by_cases h200 : resp.status_code = 200
    · rcases hdb : dbGet db tc.lookup_field av with e | o
      · simp [test_update, hg, h200, hdb]
      · rcases hchk : _update_check_db o (resolve_update_data tc dataArg)
          (resolve_update_results tc (resolve_update_data tc dataArg) resultsArg) with e2 | b <;>
          simp [test_update, hg, h200, hdb, hchk]
    · simp [test_update, hg, h200]
  · rcases hg : getattr tc.object tc.lookup_field with e | av
    · simp [test_destroy, hg]
    · by_cases h204 : resp.status_code = 204
      · rcases hdb : dbGet db tc.lookup_field av with e | o
        · by_cases he : e = PyErr.objectDoesNotExist <;> simp [test_destroy, hg, h204, hdb, he]
        · simp [test_destroy, hg, h204, hdb]
      · simp [test_destroy, hg, h204]

/-- Witness for C2: on a concrete 400 update response the response data
is printed. -/
theorem claim_C2_witness :
    (test_update sampleTC Option.none Option.none badRequestResponse dbAfterUpdate).1 =
      [badRequestResponse.data] :=
  Eq.trans
    ((claim_C2 sampleTC Option.none Option.none badRequestResponse dbAfterUpdate).2.2.2.1
      (AttrVal.plain (PyVal.int 1)) rfl)
    (by rfl)

/-- C3 counterexample: a concrete update posts the integer pk 5 for a
many-to-many key whose related objects have exactly the pk 5, so every
posted pk appears among the related objects pks as the claim reads it, yet
the database check raises an assertion error: line 390 compares each
posted pk against the unicode string coercions of the related pks, and the
integer 5 differs from the string 5. -/
theorem claim_C3_counterexample :
    getattr m2mObject "tags" = Except.ok (AttrVal.manager [PyVal.int 5]) ∧
    pyIter (dictGet m2mData "tags" PyVal.none) = Option.some [PyVal.int 5] ∧
    PyVal.int 5 ∈ [PyVal.int 5] ∧
    _update_check_db m2mObject (Option.some m2mData) Option.none =
      Except.error PyErr.assertionError :=
  ⟨rfl, rfl, by simp, rfl⟩

/-- C3 as amended: after a 200 update response, test_update fetches a
fresh copy of the object from the database by lookup_field and, for every
key in the request data, asserts the stored attribute equals the expected
value results[key], falling back to the request value when the key is
absent from results; for a foreign-key attribute it compares the related
object uuid if present, else its pk, coerced to a unicode string; for a
many-to-many attribute it instead asserts every posted pk appears among
the unicode string coercions of the related objects pks and then stops
checking remaining keys. -/
theorem claim_C3 (tc : TC) (dataArg resultsArg : Option Dict) (resp : Response)
    (db : List DBObject) (r : Response) (updated : DBObject)
    (h : (test_update tc dataArg resultsArg resp db).2 = Except.ok (r, updated)) :
    resp.status_code = 200 ∧
    (∃ oid, getattr tc.object tc.lookup_field = Except.ok oid ∧
      dbGet db tc.lookup_field oid = Except.ok updated ∧
      updated ∈ db ∧ getattrOpt updated tc.lookup_field = Option.some oid) ∧
    (∃ d, resolve_update_data tc dataArg = Option.some d ∧
      UpdateCheckOK updated
        (effective_results (resolve_update_results tc (Option.some d) resultsArg)) d) := by
  rcases hg : getattr tc.object tc.lookup_field with e | oid
  · simp [test_update, hg] at h
  · by_cases h200 : resp.status_code = 200
    · rcases hdb : dbGet db tc.lookup_field oid with e | upd
      · simp [test_update, hg, h200, hdb] at h
      · rcases hchk : _update_check_db upd (resolve_update_data tc dataArg)
            (resolve_update_results tc (resolve_update_data tc dataArg) resultsArg) with e | b
        · simp [test_update, hg, h200, hdb, hchk] at h
        · have hpair := h
          simp [test_update, hg, h200, hdb, hchk] at hpair
          obtain ⟨hr, hu⟩ := hpair
          subst hu
          rcases hdata : resolve_update_data tc dataArg with _ | d
          · rw [hdata] at hchk
            simp [_update_check_db] at hchk
          · rw [hdata] at hchk
            simp only [_update_check_db] at hchk
            refine ⟨h200, ⟨oid, rfl, hdb, (dbGet_ok_mem hdb).1, (dbGet_ok_mem hdb).2⟩,
              d, rfl, ?_⟩
            refine (update_check_loop_ok_iff _ _ d).mp ?_
            rw [hchk]
            rfl
    · simp [test_update, hg, h200] at h

/-- Witness for C3: a concrete successful update run through the amended
claim, on the sample configuration and a database holding the updated
row. -/
theorem claim_C3_witness :
    okUpdateResponse.status_code = 200 ∧
    (∃ oid, getattr sampleTC.object sampleTC.lookup_field = Except.ok oid ∧
      dbGet dbAfterUpdate sampleTC.lookup_field oid = Except.ok sampleObjectUpdated ∧
      sampleObjectUpdated ∈ dbAfterUpdate ∧
      getattrOpt sampleObjectUpdated sampleTC.lookup_field = Option.some oid) ∧
    (∃ d, resolve_update_data sampleTC Option.none = Option.some d ∧
      UpdateCheckOK sampleObjectUpdated
        (effective_results (resolve_update_results sampleTC (Option.some d) Option.none)) d) :=
  claim_C3 sampleTC Option.none Option.none okUpdateResponse dbAfterUpdate
    okUpdateResponse sampleObjectUpdated rfl

/-- C4: after a 201 create response test_create verifies the created row
exists in the database by fetching the object's model class by the id
field of the response data, and returns the response paired with the
fetched instance; when no row holds that id the test fails with
ObjectDoesNotExist. -/
theorem claim_C4 (tc : TC) (dataArg : Option Dict) (resp : Response) (db : List DBObject) :
    (∀ r c, (test_create tc dataArg resp db).2 = Except.ok (r, c) →
      r = resp ∧ resp.status_code = 201 ∧ c ∈ db ∧
      getattrOpt c "id" = Option.some (AttrVal.plain (dictGet resp.data "id" PyVal.none))) ∧
    (resp.status_code = 201 →
      (∀ o ∈ db, getattrOpt o "id" ≠
        Option.some (AttrVal.plain (dictGet resp.data "id" PyVal.none))) →
      (test_create tc dataArg resp db).2 = Except.error PyErr.objectDoesNotExist) := by
  constructor
  · intro r c h
    by_cases h201 : resp.status_code = 201
    · rcases hdb : dbGet db "id" (AttrVal.plain (dictGet resp.data "id" PyVal.none)) with e | o
      · simp [test_create, h201, hdb] at h
      · have hp := h
        simp [test_create, h201, hdb] at hp
        obtain ⟨hr, hc⟩ := hp
        subst hc
        exact ⟨hr.symm, h201, (dbGet_ok_mem hdb).1, (dbGet_ok_mem hdb).2⟩
    · simp [test_create, h201] at h
  · intro h201 hnone
    have hdb : dbGet db "id" (AttrVal.plain (dictGet resp.data "id" PyVal.none)) =
        Except.error PyErr.objectDoesNotExist := dbGet_notFound_iff.mpr hnone
    simp [test_create, h201, hdb]

/-- Witness for C4: a concrete successful create run returns the created
row, and the same response over an empty database fails with
ObjectDoesNotExist. -/
theorem claim_C4_witness :
    (okCreateResponse = okCreateResponse ∧ okCreateResponse.status_code = 201 ∧
      createdObject ∈ dbAfterCreate ∧
      getattrOpt createdObject "id" =
        Option.some (AttrVal.plain (dictGet okCreateResponse.data "id" PyVal.none))) ∧
    (test_create sampleTC Option.none okCreateResponse []).2 =
      Except.error PyErr.objectDoesNotExist :=
  ⟨(claim_C4 sampleTC Option.none okCreateResponse dbAfterCreate).1
      okCreateResponse createdObject rfl,
   (claim_C4 sampleTC Option.none okCreateResponse []).2 rfl (by simp)⟩

/-- C5: after a 204 destroy response test_destroy asserts that re-fetching
the object's model class by lookup_field equal to the deleted object's
lookup value raises ObjectDoesNotExist, i.e. no row of the database still
holds that value; the test fails when the fetch succeeds. -/
theorem claim_C5 (tc : TC) (resp : Response) (db : List DBObject) :
    (∀ r, (test_destroy tc resp db).2 = Except.ok r →
      resp.status_code = 204 ∧
      ∃ oid, getattr tc.object tc.lookup_field = Except.ok oid ∧
        dbGet db tc.lookup_field oid = Except.error PyErr.objectDoesNotExist ∧
        ∀ o ∈ db, getattrOpt o tc.lookup_field ≠ Option.some oid) ∧
    (∀ oid o, getattr tc.object tc.lookup_field = Except.ok oid →
      resp.status_code = 204 → dbGet db tc.lookup_field oid = Except.ok o →
      (test_destroy tc resp db).2 = Except.error PyErr.assertionError) := by
  constructor
  · intro r h
    rcases hg : getattr tc.object tc.lookup_field with e | oid
    · simp [test_destroy, hg] at h
    · by_cases h204 : resp.status_code = 204
      · rcases hdb : dbGet db tc.lookup_field oid with e | o
        · by_cases he : e = PyErr.objectDoesNotExist
          · subst he
            exact ⟨h204, oid, rfl, hdb, dbGet_notFound_iff.mp hdb⟩
          · simp [test_destroy, hg, h204, hdb, he] at h
        · simp [test_destroy, hg, h204, hdb] at h
      · simp [test_destroy, hg, h204] at h
  · intro oid o hg h204 hdb
    simp [test_destroy, hg, h204, hdb]

/-- Witness for C5: a concrete destroy run over the emptied database
passes, and over a database still holding the row it fails with an
assertion error. -/
theorem claim_C5_witness :
    (noContentResponse.status_code = 204 ∧
      ∃ oid, getattr sampleTC.object sampleTC.lookup_field = Except.ok oid ∧
        dbGet [] sampleTC.lookup_field oid = Except.error PyErr.objectDoesNotExist ∧
        ∀ o ∈ ([] : List DBObject), getattrOpt o sampleTC.lookup_field ≠ Option.some oid) ∧
    (test_destroy sampleTC noContentResponse [sampleObject]).2 =
      Except.error PyErr.assertionError :=
  ⟨(claim_C5 sampleTC noContentResponse []).1 noContentResponse rfl,
   (claim_C5 sampleTC noContentResponse [sampleObject]).2
     (AttrVal.plain (PyVal.int 1)) sampleObject rfl rfl rfl⟩

/-- C6: route-name resolution is deterministic string concatenation with
per-verb overrides: with the default suffixes the list endpoint name is
base_name + -list and the detail endpoint name base_name + -detail;
test_create uses create_name when the instance has one, else the list
name; test_update uses update_name when present, else the detail name;
test_destroy uses destroy_name when present, else the detail name. -/
theorem claim_C6 (tc : TC) (h1 : tc.LIST_SUFFIX = "-list")
    (h2 : tc.DETAIL_SUFFIX = "-detail") :
    listViewName tc = tc.base_name ++ "-list" ∧
    detailViewName tc = tc.base_name ++ "-detail" ∧
    (∀ n, tc.create_name = Option.some n → _get_create_name tc = n) ∧
    (tc.create_name = Option.none → _get_create_name tc = listViewName tc) ∧
    (∀ n, tc.update_name = Option.some n → _get_update_name tc = n) ∧
    (tc.update_name = Option.none → _get_update_name tc = detailViewName tc) ∧
    (∀ n, tc.destroy_name = Option.some n → _get_destroy_name tc = n) ∧
    (tc.destroy_name = Option.none → _get_destroy_name tc = detailViewName tc) := by
  refine ⟨by simp [listViewName, h1], by simp [detailViewName, h2],
    ?_, ?_, ?_, ?_, ?_, ?_⟩
  · intro n hn
    simp [_get_create_name, hn]
  · intro hn
    simp [_get_create_name, hn, listViewName]
  · intro n hn
    simp [_get_update_name, hn]
  · intro hn
    simp [_get_update_name, hn, detailViewName]
  · intro n hn
    simp [_get_destroy_name, hn]
  · intro hn
    simp [_get_destroy_name, hn, detailViewName]

/-- Witness for C6: concrete route names with and without the per-verb
overrides. -/
theorem claim_C6_witness :
    listViewName sampleTC = "widget-list" ∧
    _get_create_name sampleTC = listViewName sampleTC ∧
    _get_create_name bareTC = "gadget-create" ∧
    _get_destroy_name bareTC = "gadget-destroy" :=
  ⟨Eq.trans (claim_C6 sampleTC rfl rfl).1 rfl,
   (claim_C6 sampleTC rfl rfl).2.2.2.1 rfl,
   (claim_C6 bareTC rfl rfl).2.2.1 "gadget-create" rfl,
   (claim_C6 bareTC rfl rfl).2.2.2.2.2.2.1 "gadget-destroy" rfl⟩

/-- C7: each of the five verb mixins defines exactly one public test
method, and the composed mixins add none of their own: the read mixin
exposes exactly the list and detail tests, the write mixin exactly the
create, update and destroy tests, and the read-write mixin exactly the
union of all five, without duplicates. -/
theorem claim_C7 :
    ListAPITestCaseMixin_testMethods = ["test_list"] ∧
    DetailAPITestCaseMixin_testMethods = ["test_detail"] ∧
    CreateAPITestCaseMixin_testMethods = ["test_create"] ∧
    UpdateAPITestCaseMixin_testMethods = ["test_update"] ∧
    DestroyAPITestCaseMixin_testMethods = ["test_destroy"] ∧
    ReadRESTAPITestCaseMixin_testMethods = ["test_list", "test_detail"] ∧
    WriteRESTAPITestCaseMixin_testMethods = ["test_create", "test_update", "test_destroy"] ∧
    ReadWriteRESTAPITestCaseMixin_testMethods =
      ListAPITestCaseMixin_testMethods ++ DetailAPITestCaseMixin_testMethods ++
        CreateAPITestCaseMixin_testMethods ++ UpdateAPITestCaseMixin_testMethods ++
        DestroyAPITestCaseMixin_testMethods ∧
    ReadWriteRESTAPITestCaseMixin_testMethods.Nodup :=
  ⟨rfl, rfl, rfl, rfl, rfl, rfl, rfl, rfl, by decide⟩

/-- C8: for a subclass that does not override the update_results
attribute, get_update_results returns None regardless of its data
argument — the three-argument getattr never falls back to its default
because line 302 defines update_results as a class attribute — and the
fallback of expected values to request values instead happens inside
_update_check_db via results.get(key, value) after replacing a None
results with an empty dict. -/
theorem claim_C8 (tc : TC) (obj : DBObject) (d : Dict)
    (hNoOverride : tc.update_results = Option.none) :
    (∀ data, get_update_results tc data = tc.update_results) ∧
    (∀ data, get_update_results tc data = Option.none) ∧
    (∀ data, getattr3 (Option.none : Option (Option Dict)) data = data) ∧
    (effective_results Option.none = [] ∧
      _update_check_db obj (Option.some d) Option.none = update_check_loop obj [] d) ∧
    (∀ key value, dictGet [] key value = value) := by
  refine ⟨fun _ => rfl, ?_, fun _ => rfl, ⟨rfl, rfl⟩, fun _ _ => rfl⟩
  intro data
  simp [get_update_results, getattr3, hNoOverride]

/-- Witness for C8: on the sample configuration, which does not override
update_results, the resolved results are None for concrete request data,
and the empty-dict fallback returns the request value. -/
theorem claim_C8_witness :
    get_update_results sampleTC (Option.some [("name", PyVal.str "x")]) = Option.none ∧
    dictGet [] "name" (PyVal.str "x") = PyVal.str "x" :=
  ⟨(claim_C8 sampleTC sampleObject [] rfl).2.1 (Option.some [("name", PyVal.str "x")]),
   (claim_C8 sampleTC sampleObject [] rfl).2.2.2.2 "name" (PyVal.str "x")⟩

/-- An error raised by objects.get is ObjectDoesNotExist or
MultipleObjectsReturned. -/
theorem dbGet_error_cases {db : List DBObject} {field : String} {v : AttrVal} {e : PyErr}
    (h : dbGet db field v = Except.error e) :
    e = PyErr.objectDoesNotExist ∨ e = PyErr.multipleObjectsReturned := by
  rcases hf : db.filter (fun o => getattrOpt o field == Option.some v) with _ | ⟨a, _ | ⟨b, tl⟩⟩
  · rw [dbGet_of_filter_nil hf] at h
    injection h with h
    exact Or.inl h.symm
  · rw [dbGet_of_filter_one hf] at h
    simp at h
  · rw [dbGet_of_filter_many hf] at h
    injection h with h
    exact Or.inr h.symm

/-- C10: test_create never fails before issuing the request for lack of
data: a None data argument resolves to get_create_data() (the create_data
attribute, itself defaulting to None), any falsy resolved data is replaced
by an empty dict as the POST body, so a request with an empty body is
still sent; the only exceptions a create run surfaces come from the status
assertion and the database fetch, never from the data resolution. -/
theorem claim_C10 (tc : TC) (dataArg : Option Dict) :
    (dataArg = Option.none → create_request_data tc dataArg = get_create_data tc) ∧
    (create_request_data tc dataArg = Option.none → create_request_body tc dataArg = []) ∧
    (∀ d, create_request_data tc dataArg = Option.some d → pyTruthyDict d = false →
      create_request_body tc dataArg = []) ∧
    (∀ d, create_request_data tc dataArg = Option.some d → pyTruthyDict d = true →
      create_request_body tc dataArg = d) ∧
    (∀ resp db e, (test_create tc dataArg resp db).2 = Except.error e →
      e = PyErr.assertionError ∨ e = PyErr.objectDoesNotExist ∨
        e = PyErr.multipleObjectsReturned) := by
  refine ⟨?_, ?_, ?_, ?_, ?_⟩
  · intro h
    subst h
    rfl
  · intro h
    simp [create_request_body, h]
  · intro d hd hf
    simp [create_request_body, hd, hf]
  · intro d hd hf
    simp [create_request_body, hd, hf]
  · intro resp db e h
    by_cases h201 : resp.status_code = 201
    · rcases hdb : dbGet db "id" (AttrVal.plain (dictGet resp.data "id" PyVal.none)) with e2 | o
      · have he : e2 = e := by
          simpa [test_create, h201, hdb] using h
        subst he
        exact Or.inr (dbGet_error_cases hdb)
      · simp [test_create, h201, hdb] at h
    · have he : PyErr.assertionError = e := by
        simpa [test_create, h201] using h
      exact Or.inl he.symm

/-- Witness for C10: a concrete configuration with no create_data and a
None data argument still produces the empty POST body, and a concrete
failing run surfaces only an assertion error. -/
theorem claim_C10_witness :
    create_request_data bareTC Option.none = get_create_data bareTC ∧
    create_request_body bareTC Option.none = [] ∧
    (PyErr.assertionError = PyErr.assertionError ∨
      PyErr.assertionError = PyErr.objectDoesNotExist ∨
      PyErr.assertionError = PyErr.multipleObjectsReturned) :=
  ⟨(claim_C10 bareTC Option.none).1 rfl,
   (claim_C10 bareTC Option.none).2.1 rfl,
   (claim_C10 bareTC Option.none).2.2.2.2 notFoundResponse [] PyErr.assertionError rfl⟩

/-- C9 counterexample: an entry given as a set is accepted by the
isinstance check of line 195 but indexing it on line 196 raises TypeError,
so on a concrete run whose response data would satisfy the comparison the
method errors instead of comparing — while the same attribute given as a
plain string entry passes. -/
theorem claim_C9_counterexample :
    check_attributes_loop sampleObject [("id", PyVal.str "1")] [CheckAttr.setEntry ["id"]] =
      Except.error PyErr.typeError ∧
    check_attributes_loop sampleObject [("id", PyVal.str "1")] [CheckAttr.name "id"] =
      Except.ok () :=
  ⟨rfl, rfl⟩

/-- C9 as amended: in test_detail every attributes_to_check entry that is
a plain string is checked by comparing the unicode string coercion of the
object attribute against response data at that key, so a non-string
attribute such as an integer id matches only its string form; an entry
given as a tuple or list compares the raw, uncoerced result of applying
its second element (a callable) to the object against the response data at
the key given by its first element; an entry given as a set passes the
isinstance check but raises TypeError when indexed. -/
theorem claim_C9 (obj : DBObject) (data : Dict) (attrs : List CheckAttr) :
    (ranOk (check_attributes_loop obj data attrs) = true ↔ DetailCheckOK obj data attrs) ∧
    (∀ s n rest, getattr obj s = Except.ok (AttrVal.plain (PyVal.int n)) →
      (ranOk (check_attributes_loop obj data (CheckAttr.name s :: rest)) = true ↔
        (dictLookup data s = Option.some (PyVal.str (toString n)) ∧
          ranOk (check_attributes_loop obj data rest) = true))) ∧
    (∀ n : Int, PyVal.str (toString n) ≠ PyVal.int n) ∧
    (∀ elems rest, check_attributes_loop obj data (CheckAttr.setEntry elems :: rest) =
      Except.error PyErr.typeError) := by
  refine ⟨check_attributes_loop_ok_iff obj data attrs, ?_, fun n => by simp,
    fun elems rest => rfl⟩
  intro s n rest hg
  rcases hd : dictLookup data s with _ | dv
  · simp [check_attributes_loop, hg, hd, ranOk]
  · by_cases heq : PyVal.str (attrUnicode (AttrVal.plain (PyVal.int n))) = dv
    · subst heq
      simp [check_attributes_loop, hg, hd, ranOk, attrUnicode, pyUnicode]
    · constructor
      · intro hh
        simp [check_attributes_loop, hg, hd, heq, ranOk] at hh
      · rintro ⟨h1, _⟩
        injection h1 with h1
        exact absurd h1.symm (by simpa [attrUnicode, pyUnicode] using heq)

/-- Witness for C9: a concrete detail check on an integer id passes
against the string form of the id, through both the characterization and
the string-form equivalence. -/
theorem claim_C9_witness :
    DetailCheckOK sampleObject [("id", PyVal.str "1")] [CheckAttr.name "id"] ∧
    (dictLookup [("id", PyVal.str "1")] "id" = Option.some (PyVal.str (toString (1 : Int))) ∧
      ranOk (check_attributes_loop sampleObject [("id", PyVal.str "1")] []) = true) :=
  ⟨((claim_C9 sampleObject [("id", PyVal.str "1")] [CheckAttr.name "id"]).1).mp rfl,
   ((claim_C9 sampleObject [("id", PyVal.str "1")] [CheckAttr.name "id"]).2.1 "id" 1 []
     rfl).mp rfl⟩

end RestAssured
